import Mathlib

/-!
Verification of the syslog-sender program (src/main.go) against its
natural-language specification.  The Go code is shallowly embedded: pure
computations become Lean functions, the two environment reads of
`formatMessage` (wall-clock timestamp, system hostname) become explicit
parameters, the socket becomes an explicit write trace, and Go's
`(value, error)` returns become pairs with an `Option String` error
component.  Go `int` is embedded as `Int`; no arithmetic in this program
can overflow 64 bits on the values the claims range over.
-/

namespace SyslogSender

/-- Embeds the Go struct `SyslogConfig` (src/main.go lines 21-30). -/
structure SyslogConfig where
  Address : String
  Port : Int
  Transport : String
  Facility : Int
  Severity : Int
  Message : String
  Hostname : String
  Program : String
  deriving Repr, DecidableEq

/-- Embeds Go `strings.ToLower` as applied at src/main.go lines 60 and 251:
per-character lower-casing.  (Defined on the character list so that it
evaluates by kernel reduction.) -/
def toLowerStr (s : String) : String := ⟨s.data.map Char.toLower⟩

/-- Embeds Go `strings.ReplaceAll(s, " ", "-")` (src/main.go lines 90 and
101): the pattern is the single space character, so the call rewrites every
space of `s` to a hyphen and leaves every other character unchanged. -/
def replaceAllSpaceHyphen (s : String) : String :=
  ⟨s.data.map (fun ch => if ch = ' ' then '-' else ch)⟩

/-- Embeds `(*SyslogClient).validateConfig` (src/main.go lines 43-67).  The Go
method returns an `error` and, on success only, assigns the lower-cased
transport back into `s.config.Transport`; the embedding returns the error
(`none` for Go `nil`) together with the post-state of the configuration. -/
def validateConfig (c : SyslogConfig) : Option String × SyslogConfig :=
  if c.Message = "" then
    (some "message is required", c)
  else if c.Facility < 0 ∨ c.Facility > 23 then
    (some "facility must be between 0 and 23", c)
  else if c.Severity < 0 ∨ c.Severity > 7 then
    (some "severity must be between 0 and 7", c)
  else if c.Port < 1 ∨ c.Port > 65535 then
    (some "port must be between 1 and 65535", c)
  else
    let transport := toLowerStr c.Transport
    if transport ≠ "udp" ∧ transport ≠ "tcp" then
      (some "transport must be 'udp' or 'tcp'", c)
    else
      (none, { c with Transport := transport })

/-- Embeds `(*SyslogClient).formatMessage` (src/main.go lines 70-108).  The two
environment reads are passed explicitly: `timestamp` stands for `time.Now()`
rendered in the layout "Jan  2 15:04:05", and `sysHostname` for the result of
`os.Hostname()` (`none` when that call fails).  The Go function returns
`(string, error)`; the embedding keeps that shape, the error component being
`none` exactly as the source ends in `return message, nil`. -/
def formatMessage (c : SyslogConfig) (timestamp : String) (sysHostname : Option String) :
    String × Option String :=
  let priority := c.Facility * 8 + c.Severity
  let hostname :=
    if c.Hostname ≠ "" then c.Hostname
    else
      match sysHostname with
      | some h => h
      | none => "localhost"
  let hostname := replaceAllSpaceHyphen hostname
  let program := if c.Program ≠ "" then c.Program else "syslog-sender"
  let program := replaceAllSpaceHyphen program
  let message := "<" ++ toString priority ++ ">" ++ timestamp ++ " " ++ hostname ++ " " ++
    program ++ ": " ++ c.Message
  (message, none)

/-- Trace of one transport socket: the payloads written, in order, and whether
the socket was closed.  Address resolution and dialing succeed in the model;
the properties under study concern the bytes written on the success path. -/
structure Conn where
  written : List String
  closed : Bool
  deriving Repr, DecidableEq

/-- One `conn.Write(...)` call: appends the payload to the trace. -/
def connWrite (conn : Conn) (payload : String) : Conn :=
  { conn with written := conn.written ++ [payload] }

/-- A `conn.Close()` call (run via `defer` in the source). -/
def connClose (conn : Conn) : Conn := { conn with closed := true }

/-- Embeds `(*SyslogClient).SendUDP` (src/main.go lines 111-136): open a fresh
socket, write the message's raw bytes once, close. -/
def SendUDP (message : String) : Conn :=
  connClose (connWrite { written := [], closed := false } message)

/-- Embeds `(*SyslogClient).SendTCP` (src/main.go lines 139-159): open a fresh
connection, append a single newline to the message, write once, close. -/
def SendTCP (message : String) : Conn :=
  let messageWithNewline := message ++ "\n"
  connClose (connWrite { written := [], closed := false } messageWithNewline)

/-- Embeds `(*SyslogClient).Send` (src/main.go lines 162-189): validate (the
configuration mutated by validation flows onward), format, then dispatch on
the normalized transport string; `Except.error` carries the Go error text. -/
def Send (c : SyslogConfig) (timestamp : String) (sysHostname : Option String) :
    Except String Conn :=
  match validateConfig c with
  | (some err, _) => .error err
  | (none, c') =>
    match formatMessage c' timestamp sysHostname with
    | (_, some ferr) => .error ("failed to format message: " ++ ferr)
    | (message, none) =>
      match c'.Transport with
      | "udp" => .ok (SendUDP message)
      | "tcp" => .ok (SendTCP message)
      | t => .error ("unsupported transport: " ++ t)

/-- Embeds the command-line port resolution of `main` (src/main.go lines 214
and 250-253).  `explicitPort` is the value the caller supplied for the port
flag, `none` when the flag was omitted (the flag package then leaves the
registered default 514).  After parsing, `flag.Lookup("port").Value.String()`
renders the resolved integer value in decimal, so the adjustment compares that
rendering with "514" — it inspects the resolved value, not whether the caller
typed the flag. -/
def effectivePort (explicitPort : Option Int) (transport : String) : Int :=
  let port := explicitPort.getD 514
  if toString port = "514" ∧ toLowerStr transport = "tcp" then 601 else port

/-- The specification's description of the effective reporting host
(spec section 4.2): explicit override if present, else the system hostname,
else the literal fallback "localhost" when host lookup fails.  Stated from the
spec's words, to be compared with `formatMessage`. -/
def hostPerSpec (override : String) (sysHostname : Option String) : String :=
  if override ≠ "" then override
  else
    match sysHostname with
    | some h => h
    | none => "localhost"

/-- The specification's description of the effective reporting program
(spec section 4.2): explicit override if present, else the fixed default
program identifier. -/
def programPerSpec (override : String) : String :=
  if override ≠ "" then override else "syslog-sender"

/-- A representative valid configuration (the one used throughout the
repository's tests): facility 16, severity 6, message "test message". -/
def cfgA : SyslogConfig :=
  ⟨"localhost", 514, "udp", 16, 6, "test message", "test-host", "test-program"⟩

/-- The configuration of the spec's space-handling example: hostname and
program contain interior spaces. -/
def cfgSpaces : SyslogConfig :=
  ⟨"localhost", 514, "udp", 16, 6, "test message", "test host name", "test program"⟩

/-- An invalid configuration: empty message and out-of-range facility at
once (the first two validation checks both fail on it). -/
def cfgEmptyBadFacility : SyslogConfig :=
  ⟨"localhost", 514, "udp", 99, 6, "", "", ""⟩

/-- The character list underlying the space-to-hyphen rewriting. -/
theorem replaceAll_data (s : String) :
    (replaceAllSpaceHyphen s).data = s.data.map (fun ch => if ch = ' ' then '-' else ch) := rfl

/-- No space character survives the space-to-hyphen rewriting. -/
theorem replaceAll_no_space (s : String) : ∀ ch ∈ (replaceAllSpaceHyphen s).data, ch ≠ ' ' := by
  intro ch h
  rw [replaceAll_data] at h
  rcases List.mem_map.mp h with ⟨a, _, rfl⟩
  by_cases ha : a = ' ' <;> simp [ha]

/-- The rendered line of `formatMessage`, written with the spec-side
resolution functions: the refinement equation relating code and spec. -/
theorem formatMessage_eq (c : SyslogConfig) (ts : String) (sys : Option String) :
    (formatMessage c ts sys).1 =
      "<" ++ toString (c.Facility * 8 + c.Severity) ++ ">" ++ ts ++ " " ++
        replaceAllSpaceHyphen (hostPerSpec c.Hostname sys) ++ " " ++
        replaceAllSpaceHyphen (programPerSpec c.Program) ++ ": " ++ c.Message := rfl

/-- Rendering a nonnegative machine integer in decimal agrees with rendering
the corresponding natural number. -/
theorem toString_int_nonneg (x : Int) (h : 0 ≤ x) : toString x = Nat.repr x.toNat := by
  obtain ⟨n, rfl⟩ := Int.eq_ofNat_of_zero_le h
  rfl

set_option maxRecDepth 4000 in
/-- For every value a priority can take, the decimal rendering of a nonzero
number does not start with the digit 0. -/
theorem repr_front_bounded : ∀ n : Nat, n < 192 → n ≠ 0 → (Nat.repr n).front ≠ '0' := by
  decide

/-- On a successful validation, the normalized transport is one of the two
recognized strings. -/
theorem validateConfig_ok_transport (c : SyslogConfig) (h : (validateConfig c).1 = none) :
    (validateConfig c).2.Transport = "udp" ∨ (validateConfig c).2.Transport = "tcp" := by
  simp only [validateConfig] at h ⊢
  split_ifs at h ⊢ with h1 h2 h3 h4 h5
  rcases not_and_or.mp h5 with hu | ht
  · left; simp [not_not.mp hu]
  · right; simp [not_not.mp ht]

/-- Claim C1.  The first two conjuncts hold as the claim states: with the port
flag omitted, transport "tcp" resolves to 601 and "udp" to 514, and an
explicitly supplied port other than 514 is kept.  The last conjunct records
the divergence: a caller who explicitly supplies port 514 together with "tcp"
still gets 601, because the adjustment at src/main.go line 251 compares the
resolved flag value with "514" instead of asking whether the flag was
supplied — contradicting the claim and the code's own comment at line 250
("Adjust default port for TCP if not explicitly set"). -/
theorem effectivePort_cases :
    effectivePort none "tcp" = 601 ∧
      effectivePort none "udp" = 514 ∧
      effectivePort (some 9999) "tcp" = 9999 ∧
      effectivePort (some 514) "udp" = 514 ∧
      effectivePort (some 514) "tcp" = 601 := by
  decide

/-- Claim C2: for every facility in [0,23] and severity in [0,7], the rendered
line begins with `<`, then the decimal numeral of facility*8+severity (the
rendering of the corresponding natural number, which for a nonzero value does
not start with a 0 digit), then `>`, then immediately the timestamp; and the
priority lies in [0,191]. -/
theorem priority_tag_range (c : SyslogConfig) (ts : String) (sys : Option String)
    (hf0 : 0 ≤ c.Facility) (hf : c.Facility ≤ 23)
    (hs0 : 0 ≤ c.Severity) (hs : c.Severity ≤ 7) :
    (∃ rest, (formatMessage c ts sys).1 =
        "<" ++ Nat.repr (c.Facility * 8 + c.Severity).toNat ++ ">" ++ ts ++ rest) ∧
      toString (c.Facility * 8 + c.Severity) = Nat.repr (c.Facility * 8 + c.Severity).toNat ∧
      ((c.Facility * 8 + c.Severity).toNat ≠ 0 →
        (Nat.repr (c.Facility * 8 + c.Severity).toNat).front ≠ '0') ∧
      0 ≤ c.Facility * 8 + c.Severity ∧ c.Facility * 8 + c.Severity ≤ 191 := by
  have hpr : toString (c.Facility * 8 + c.Severity) =
      Nat.repr (c.Facility * 8 + c.Severity).toNat :=
    toString_int_nonneg _ (by omega)
  refine ⟨⟨" " ++ replaceAllSpaceHyphen (hostPerSpec c.Hostname sys) ++ " " ++
      replaceAllSpaceHyphen (programPerSpec c.Program) ++ ": " ++ c.Message, ?_⟩,
    hpr, ?_, by omega, by omega⟩
  · rw [formatMessage_eq, hpr]
    simp [String.append_assoc]
  · exact repr_front_bounded _ (by omega)

/-- Instance of claim C2 at a concrete configuration. -/
theorem priority_tag_range_witness :
    (∃ rest, (formatMessage cfgA "Jan  2 15:04:05" none).1 =
        "<" ++ Nat.repr (cfgA.Facility * 8 + cfgA.Severity).toNat ++ ">" ++
          "Jan  2 15:04:05" ++ rest) ∧
      toString (cfgA.Facility * 8 + cfgA.Severity) =
        Nat.repr (cfgA.Facility * 8 + cfgA.Severity).toNat ∧
      ((cfgA.Facility * 8 + cfgA.Severity).toNat ≠ 0 →
        (Nat.repr (cfgA.Facility * 8 + cfgA.Severity).toNat).front ≠ '0') ∧
      0 ≤ cfgA.Facility * 8 + cfgA.Severity ∧ cfgA.Facility * 8 + cfgA.Severity ≤ 191 :=
  priority_tag_range cfgA "Jan  2 15:04:05" none (by decide) (by decide) (by decide) (by decide)

/-- Claim C3: validation fails exactly when the message is empty, or the
facility is outside [0,23], or the severity is outside [0,7], or the port is
outside [1,65535], or the transport, compared case-insensitively (lower-cased
on both sides of the comparison, as the source does), is neither "udp" nor
"tcp"; on every configuration meeting none of these conditions it succeeds. -/
theorem validateConfig_error_iff (c : SyslogConfig) :
    (validateConfig c).1 ≠ none ↔
      (c.Message = "" ∨ c.Facility < 0 ∨ c.Facility > 23 ∨ c.Severity < 0 ∨ c.Severity > 7 ∨
        c.Port < 1 ∨ c.Port > 65535 ∨
        (toLowerStr c.Transport ≠ "udp" ∧ toLowerStr c.Transport ≠ "tcp")) := by
  simp only [validateConfig]
  split_ifs with h1 h2 h3 h4 h5 <;> simp_all <;> tauto

/-- Claim C4: the checks run in the fixed order message, facility, severity,
port, transport, and the reported failure is that of the first check in this
order that fails — each conjunct fixes the outcome under the negations of all
earlier checks, so in particular a configuration with an empty message and an
out-of-range facility reports the missing-message failure. -/
theorem validateConfig_first_error (c : SyslogConfig) :
    (c.Message = "" → (validateConfig c).1 = some "message is required") ∧
    (c.Message ≠ "" → (c.Facility < 0 ∨ c.Facility > 23) →
      (validateConfig c).1 = some "facility must be between 0 and 23") ∧
    (c.Message ≠ "" → ¬(c.Facility < 0 ∨ c.Facility > 23) →
      (c.Severity < 0 ∨ c.Severity > 7) →
      (validateConfig c).1 = some "severity must be between 0 and 7") ∧
    (c.Message ≠ "" → ¬(c.Facility < 0 ∨ c.Facility > 23) →
      ¬(c.Severity < 0 ∨ c.Severity > 7) → (c.Port < 1 ∨ c.Port > 65535) →
      (validateConfig c).1 = some "port must be between 1 and 65535") ∧
    (c.Message ≠ "" → ¬(c.Facility < 0 ∨ c.Facility > 23) →
      ¬(c.Severity < 0 ∨ c.Severity > 7) → ¬(c.Port < 1 ∨ c.Port > 65535) →
      (toLowerStr c.Transport ≠ "udp" ∧ toLowerStr c.Transport ≠ "tcp") →
      (validateConfig c).1 = some "transport must be 'udp' or 'tcp'") := by
  simp only [validateConfig]
  split_ifs with h1 h2 h3 h4 h5 <;> simp_all

/-- Instance of claim C4: on a configuration whose message is empty and whose
facility is out of range at once, the reported failure is the missing-message
one. -/
theorem validateConfig_first_error_witness :
    (validateConfig cfgEmptyBadFacility).1 = some "message is required" :=
  (validateConfig_first_error cfgEmptyBadFacility).1 rfl

/-- Claim C5: per invocation, the connectionless transmitter performs exactly
one write, of exactly the rendered line's bytes with no trailing newline, and
the connection-oriented transmitter performs exactly one write, of exactly the
rendered line's bytes followed by a single newline character. -/
theorem transmit_writes (message : String) :
    (SendUDP message).written = [message] ∧
    (SendTCP message).written = [message ++ "\n"] ∧
    (SendUDP message).written.length = 1 ∧
    (SendTCP message).written.length = 1 ∧
    (SendTCP message).written.map String.data = [message.data ++ ['\n']] ∧
    (SendUDP message).closed = true ∧ (SendTCP message).closed = true := by
  refine ⟨rfl, rfl, rfl, rfl, ?_, rfl, rfl⟩
  simp [SendTCP, connWrite, connClose, String.data_append]

/-- Claim C6: the effective host and program identifiers reach the rendered
line only through the space-to-hyphen rewriting (whose output has no space
left), while the body text is appended verbatim; and on the configuration
with facility 16, severity 6, hostname "test host name", program
"test program" and message "test message", the rendered line is exactly the
concatenation showing "<134>", then "test-host-name", then "test-program:",
then "test message", in that order. -/
theorem render_space_handling :
    (∀ s : String, ∀ ch ∈ (replaceAllSpaceHyphen s).data, ch ≠ ' ') ∧
    (∀ (c : SyslogConfig) (ts : String) (sys : Option String),
      (formatMessage c ts sys).1 =
        "<" ++ toString (c.Facility * 8 + c.Severity) ++ ">" ++ ts ++ " " ++
          replaceAllSpaceHyphen (hostPerSpec c.Hostname sys) ++ " " ++
          replaceAllSpaceHyphen (programPerSpec c.Program) ++ ": " ++ c.Message) ∧
    ((formatMessage cfgSpaces "Jan  2 15:04:05" none).1 =
      "<134>" ++ "Jan  2 15:04:05" ++ " " ++ "test-host-name" ++ " " ++ "test-program:" ++
        " " ++ "test message") := by
  refine ⟨replaceAll_no_space, formatMessage_eq, ?_⟩
  decide

/-- Claim C7: the rendered line uses, for the reporting host, the explicit
override when present, else the system hostname, else the literal "localhost"
when the hostname lookup failed; for the reporting program, the explicit
override when present, else the fixed default "syslog-sender"; both passed
through the space-to-hyphen rewriting before rendering.  The first conjunct
is the refinement equation against the spec-side resolution functions, the
rest unfold those functions case by case. -/
theorem effective_identity_resolution :
    (∀ (c : SyslogConfig) (ts : String) (sys : Option String),
      (formatMessage c ts sys).1 =
        "<" ++ toString (c.Facility * 8 + c.Severity) ++ ">" ++ ts ++ " " ++
          replaceAllSpaceHyphen (hostPerSpec c.Hostname sys) ++ " " ++
          replaceAllSpaceHyphen (programPerSpec c.Program) ++ ": " ++ c.Message) ∧
    (∀ (o : String) (sys : Option String), o ≠ "" → hostPerSpec o sys = o) ∧
    (∀ h : String, hostPerSpec "" (some h) = h) ∧
    hostPerSpec "" none = "localhost" ∧
    (∀ o : String, o ≠ "" → programPerSpec o = o) ∧
    programPerSpec "" = "syslog-sender" := by
  refine ⟨formatMessage_eq, fun o sys ho => ?_, fun h => rfl, rfl, fun o ho => ?_, rfl⟩
  · simp [hostPerSpec, ho]
  · simp [programPerSpec, ho]

/-- Claim C8: validation touches no field but `Transport` — on success the
post-state keeps every other field and holds the lower-cased transport, and on
any failure the configuration is returned entirely unchanged. -/
theorem validateConfig_frame (c : SyslogConfig) :
    ((validateConfig c).1 = none →
      (validateConfig c).2.Transport = toLowerStr c.Transport ∧
      (validateConfig c).2.Address = c.Address ∧ (validateConfig c).2.Port = c.Port ∧
      (validateConfig c).2.Facility = c.Facility ∧
      (validateConfig c).2.Severity = c.Severity ∧
      (validateConfig c).2.Message = c.Message ∧
      (validateConfig c).2.Hostname = c.Hostname ∧
      (validateConfig c).2.Program = c.Program) ∧
    ((validateConfig c).1 ≠ none → (validateConfig c).2 = c) := by
  simp only [validateConfig]
  split_ifs with h1 h2 h3 h4 h5 <;> simp_all

/-- Claim C9: `formatMessage` always succeeds (its error component is `none`
on every input), and whenever validation succeeds `Send` reaches the "udp" or
the "tcp" dispatch arm — so neither the format-failure branch nor the
unsupported-transport default branch is reachable on a validated
configuration. -/
theorem send_dispatch (c : SyslogConfig) (ts : String) (sys : Option String) :
    (formatMessage c ts sys).2 = none ∧
    ((validateConfig c).1 = none →
      ((validateConfig c).2.Transport = "udp" ∧
        Send c ts sys = Except.ok (SendUDP (formatMessage (validateConfig c).2 ts sys).1)) ∨
      ((validateConfig c).2.Transport = "tcp" ∧
        Send c ts sys = Except.ok (SendTCP (formatMessage (validateConfig c).2 ts sys).1))) := by
  refine ⟨rfl, fun h => ?_⟩
  have ht := validateConfig_ok_transport c h
  rcases hvc : validateConfig c with ⟨e, c2⟩
  rw [hvc] at h ht
  subst h
  rcases ht with h1 | h1
  · left
    replace h1 : c2.Transport = "udp" := h1
    refine ⟨h1, ?_⟩
    simp [Send, hvc, h1, formatMessage]
  · right
    replace h1 : c2.Transport = "tcp" := h1
    refine ⟨h1, ?_⟩
    simp [Send, hvc, h1, formatMessage]

/-- Claim C10: the space-to-hyphen rewriting is positional and total — it
keeps the length, turns the character at every position holding a space
(leading, interior or trailing) into a hyphen, and leaves the character at
every other position (tabs included) unchanged; and it applies to the
identifiers whatever their origin, in particular to a hostname coming from
the system lookup and to the built-in default program name. -/
theorem replaceAll_pointwise :
    (∀ s : String, (replaceAllSpaceHyphen s).data.length = s.data.length) ∧
    (∀ (s : String) (i : Nat),
      (replaceAllSpaceHyphen s).data[i]? =
        (s.data[i]?).map (fun ch => if ch = ' ' then '-' else ch)) ∧
    replaceAllSpaceHyphen " padded host " = "-padded-host-" ∧
    replaceAllSpaceHyphen "tab\there" = "tab\there" ∧
    (∀ (c : SyslogConfig) (ts h : String), c.Hostname = "" → c.Program = "" →
      (formatMessage c ts (some h)).1 =
        "<" ++ toString (c.Facility * 8 + c.Severity) ++ ">" ++ ts ++ " " ++
          replaceAllSpaceHyphen h ++ " " ++ replaceAllSpaceHyphen "syslog-sender" ++
          ": " ++ c.Message) := by
  refine ⟨fun s => ?_, fun s i => ?_, by decide, rfl, fun c ts h hh hp => ?_⟩
  · simp [replaceAll_data]
  · simp [replaceAll_data]
  · rw [formatMessage_eq]
    simp [hostPerSpec, programPerSpec, hh, hp]

end SyslogSender
